import Mathlib

/- Verification of the llm-agent-python code-editing agent.

Shallow embedding of the repository's core: the two provider adapters
(src/llm_providers/anthropic_provider.py, src/llm_providers/openai_provider.py),
the agent loop's tool execution and history flushing (src/main.py), and the
file-tool handlers (src/plugins/file_tools.py). Pure functions are translated
directly; the filesystem and the persisted history file are made explicit state;
Python exceptions become Except values. -/

/- ===== String helpers =====
Python's substring test (`old_str in content`) and replace-all
(`content.replace(old_str, new_str)`) translated to structural recursion on the
character list, so that concrete instances evaluate in the kernel. -/

/-- Does the character list start with the pattern list. -/
def charsStartsWith : List Char → List Char → Bool
  | _, [] => true
  | [], _ :: _ => false
  | c :: cs, p :: ps => c == p && charsStartsWith cs ps

/-- Python substring test: `pat in s` on character lists. -/
def charsContains : List Char → List Char → Bool
  | [], pat => pat.isEmpty
  | c :: cs, pat => charsStartsWith (c :: cs) pat || charsContains cs pat

/-- Replace every (leftmost, non-overlapping) occurrence of `pat` by `rep`,
fuelled so the recursion is structural; fuel `s.length` is enough because each
step consumes at least one character of `s` (the replace branch is guarded by
`pat` being non-empty). -/
def charsReplaceAux : Nat → List Char → List Char → List Char → List Char
  | 0, s, _, _ => s
  | _ + 1, [], _, _ => []
  | fuel + 1, c :: cs, pat, rep =>
    if charsStartsWith (c :: cs) pat && !pat.isEmpty then
      rep ++ charsReplaceAux fuel (List.drop pat.length (c :: cs)) pat rep
    else
      c :: charsReplaceAux fuel cs pat rep

/-- Python `pat in s` for strings. -/
def strContains (s pat : String) : Bool := charsContains s.data pat.data

/-- Python `s.replace(pat, rep)` (replace all occurrences, left to right,
non-overlapping). Only used with non-empty `pat`, as in the source. -/
def strReplace (s pat rep : String) : String :=
  String.mk (charsReplaceAux s.data.length s.data pat.data rep.data)

/- ===== Filesystem model =====
A filesystem is an association list from path to file content; an absent key is
a file that does not exist. Reads of existing files succeed (the embedding does
not model permission failures on the tool side), and writes succeed, which is
the normal-path behaviour of the Python handlers. -/

/-- Filesystem state: path-to-content association list. -/
abbrev Filesystem := List (String × String)

/-- Read a file: `some content` when the path exists, `none` otherwise. -/
def fsRead : Filesystem → String → Option String
  | [], _ => none
  | (q, c) :: rest, p => if q = p then some c else fsRead rest p

/-- Write (create or overwrite) a file. -/
def fsWrite : Filesystem → String → String → Filesystem
  | [], p, c => [(p, c)]
  | (q, d) :: rest, p, c => if q = p then (p, c) :: rest else (q, d) :: fsWrite rest p c

/- ===== File tools (src/plugins/file_tools.py) ===== -/

/-- FileToolsPlugin._edit_file (src/plugins/file_tools.py lines 89-119), with
the filesystem passed explicitly and raised exceptions returned as
`Except.error` with the raised message (the dynamic `{e}` detail of the Python
read-error message is dropped; the path is kept). On success the new
filesystem and the returned status string are produced; on error the caller's
filesystem is unchanged (no new filesystem is returned). -/
def editFile (fs : Filesystem) (path old_str new_str : String) :
    Except String (Filesystem × String) :=
  if path = "" then Except.error "Path is required"
  else if old_str = new_str then Except.error "old_str and new_str must be different"
  else
    match fsRead fs path with
    | none =>
      if old_str = "" then
        Except.ok (fsWrite fs path new_str, "Successfully created file " ++ path)
      else Except.error ("Error reading file " ++ path)
    | some content =>
      if old_str = "" then Except.ok (fsWrite fs path (content ++ new_str), "OK")
      else if strContains content old_str then
        Except.ok (fsWrite fs path (strReplace content old_str new_str), "OK")
      else Except.error ("old_str not found in file " ++ path)

/-- Kind of a directory entry, as the Python `item.is_file()` / `item.is_dir()`
tests see it; entries that are neither (the trailing implicit case of the
`if`/`elif`) are skipped by the handler. -/
inductive EntryKind where
  | file : EntryKind
  | dir : EntryKind
  | other : EntryKind
deriving DecidableEq

/-- One entry of the directory being listed. -/
structure DirEntry where
  name : String
  kind : EntryKind
deriving DecidableEq

/-- FileToolsPlugin._list_files (src/plugins/file_tools.py lines 72-87) on an
existing directory, as a function of the directory's entries: file names and
slash-suffixed directory names are collected, each group is sorted, and the
directory group precedes the file group. The source returns `json.dumps` of
this very list; since JSON serialization of a string list is injective, the
list itself is the output modulo encoding. -/
def listFiles (entries : List DirEntry) : List String :=
  let files := (entries.filter (fun e => e.kind == EntryKind.file)).map DirEntry.name
  let directories := (entries.filter (fun e => e.kind == EntryKind.dir)).map (fun e => e.name ++ "/")
  List.insertionSort (· ≤ ·) directories ++ List.insertionSort (· ≤ ·) files

/- ===== Provider adapters ===== -/

/-- Normalized token usage, as the dict returned by `get_token_usage`. -/
structure TokenUsage where
  prompt_tokens : Nat
  completion_tokens : Nat
  total_tokens : Nat
deriving DecidableEq

/-- A tool-call input as it is passed through the agent. The Anthropic adapter
delivers the structured input object of the `tool_use` block (modelled as a
string-keyed association list); the OpenAI adapter passes the vendor's raw
JSON-encoded `function.arguments` string through unparsed (see the repo's own
test_extract_tool_calls, which asserts the string is returned verbatim). -/
inductive ToolArg where
  | structured (fields : List (String × String)) : ToolArg
  | rawString (raw : String) : ToolArg
deriving DecidableEq

/-- Is this tool input a structured object (rather than a raw string)? -/
def ToolArg.isStructured : ToolArg → Bool
  | ToolArg.structured _ => true
  | ToolArg.rawString _ => false

/-- A normalized tool call `{id, name, input}` as built by `extract_tool_calls`. -/
structure NormToolCall where
  id : String
  name : String
  input : ToolArg
deriving DecidableEq

/-- One content block of an Anthropic response. -/
inductive ContentBlock where
  | text (text : String) : ContentBlock
  | toolUse (id name : String) (input : List (String × String)) : ContentBlock
deriving DecidableEq

/-- Usage of an Anthropic response: the vendor reports input and output token
counts and no total of its own. -/
structure AnthropicUsage where
  input_tokens : Nat
  output_tokens : Nat
deriving DecidableEq

/-- An Anthropic response message. -/
structure AnthropicMessage where
  content : List ContentBlock
  usage : AnthropicUsage
deriving DecidableEq

/-- AnthropicProvider.extract_tool_calls (src/llm_providers/anthropic_provider.py
lines 30-40): iterate the content blocks in order, appending a normalized call
for each `tool_use` block. -/
def AnthropicProvider.extract_tool_calls (response : AnthropicMessage) : List NormToolCall :=
  response.content.foldl
    (fun tool_calls block =>
      match block with
      | ContentBlock.toolUse i n inp =>
        tool_calls ++ [{ id := i, name := n, input := ToolArg.structured inp }]
      | _ => tool_calls)
    []

/-- AnthropicProvider.get_token_usage (src/llm_providers/anthropic_provider.py
lines 50-56): total_tokens is computed as input_tokens + output_tokens. -/
def AnthropicProvider.get_token_usage (response : AnthropicMessage) : TokenUsage :=
  { prompt_tokens := response.usage.input_tokens
    completion_tokens := response.usage.output_tokens
    total_tokens := response.usage.input_tokens + response.usage.output_tokens }

/-- The `function` part of an OpenAI tool call; `arguments` is the vendor's
JSON-encoded string. -/
structure OpenAIFunctionCall where
  name : String
  arguments : String
deriving DecidableEq

/-- One tool call of an OpenAI choice message. -/
structure OpenAIToolCall where
  id : String
  function : OpenAIFunctionCall
deriving DecidableEq

/-- The message of an OpenAI choice; `tool_calls` is `none` when absent (the
Python truth test also skips an empty list, which appends nothing either way). -/
structure OpenAIChatMessage where
  content : Option String
  tool_calls : Option (List OpenAIToolCall)
deriving DecidableEq

/-- One choice of an OpenAI response. -/
structure OpenAIChoice where
  message : OpenAIChatMessage
deriving DecidableEq

/-- Usage of an OpenAI response: the vendor reports all three counters,
including its own total. -/
structure OpenAIUsage where
  prompt_tokens : Nat
  completion_tokens : Nat
  total_tokens : Nat
deriving DecidableEq

/-- An OpenAI chat-completions response. -/
structure OpenAIResponse where
  choices : List OpenAIChoice
  usage : OpenAIUsage
deriving DecidableEq

/-- OpenAIProvider.extract_tool_calls (src/llm_providers/openai_provider.py
lines 33-44): iterate the choices in order and, within each choice that has
tool calls, iterate those in order, appending a normalized call whose input is
the raw `function.arguments` string. -/
def OpenAIProvider.extract_tool_calls (response : OpenAIResponse) : List NormToolCall :=
  response.choices.foldl
    (fun tool_calls choice =>
      match choice.message.tool_calls with
      | none => tool_calls
      | some tcs =>
        tcs.foldl
          (fun acc tc =>
            acc ++ [{ id := tc.id, name := tc.function.name,
                      input := ToolArg.rawString tc.function.arguments }])
          tool_calls)
    []

/-- OpenAIProvider.get_token_usage (src/llm_providers/openai_provider.py lines
54-60): all three counters, including total_tokens, are copied from the
vendor's usage object as reported. -/
def OpenAIProvider.get_token_usage (response : OpenAIResponse) : TokenUsage :=
  { prompt_tokens := response.usage.prompt_tokens
    completion_tokens := response.usage.completion_tokens
    total_tokens := response.usage.total_tokens }

/-- Specification-side description (spec.md 4.1): the ordered sequence of
tool-invocation segments of an Anthropic response, one per `tool_use` block,
in the original order. -/
def anthropicToolSegments (response : AnthropicMessage) : List NormToolCall :=
  response.content.filterMap
    (fun block =>
      match block with
      | ContentBlock.toolUse i n inp =>
        some { id := i, name := n, input := ToolArg.structured inp }
      | _ => none)

/-- Specification-side description (spec.md 4.1): the ordered sequence of
tool-invocation segments of an OpenAI response, choice by choice, each segment
carrying the vendor's raw arguments string as input. -/
def openaiToolSegments (response : OpenAIResponse) : List NormToolCall :=
  (response.choices.map
    (fun choice =>
      (choice.message.tool_calls.getD []).map
        (fun tc => { id := tc.id, name := tc.function.name,
                     input := ToolArg.rawString tc.function.arguments }))).flatten

/- ===== Agent loop: tool execution (src/main.py) ===== -/

/-- ToolDefinition (src/plugins/base.py lines 5-10): the handler either returns
a string or fails with a message (a raised Python exception, stringified). -/
structure ToolDefinition where
  name : String
  description : String
  input_schema : List (String × String)
  function : ToolArg → Except String String

/-- A tool result dict as built by CodeEditingAgent._execute_tool. -/
structure ToolResult where
  type : String
  tool_use_id : String
  content : String
  is_error : Bool
deriving DecidableEq

/-- CodeEditingAgent._execute_tool (src/main.py lines 233-263): look the tool up
by name (first match); absent name gives an is_error result "Tool not found";
a handler failure gives an is_error result carrying the failure message; a
handler success gives a non-error result carrying the handler's string. The
function is total: no branch raises. -/
def executeTool (tools : List ToolDefinition) (tool_id tool_name : String)
    (tool_input : ToolArg) : ToolResult :=
  match tools.find? (fun t => t.name == tool_name) with
  | none =>
    { type := "tool_result", tool_use_id := tool_id, content := "Tool not found", is_error := true }
  | some tool_def =>
    match tool_def.function tool_input with
    | Except.ok result =>
      { type := "tool_result", tool_use_id := tool_id, content := result, is_error := false }
    | Except.error e =>
      { type := "tool_result", tool_use_id := tool_id, content := e, is_error := true }

/-- One entry of the agent's conversation list. -/
inductive ConvEntry where
  | userText (content : String) : ConvEntry
  | assistantText (content : String) : ConvEntry
  | assistantToolUse (tool_calls : List NormToolCall) : ConvEntry
  | userToolResults (results : List ToolResult) : ConvEntry

/-- The tool results collected by the run loop (src/main.py lines 153-161):
one `executeTool` result per extracted tool call, in order. -/
def toolResultsFor (tools : List ToolDefinition) (tool_calls : List NormToolCall) :
    List ToolResult :=
  tool_calls.map (fun tc => executeTool tools tc.id tc.name tc.input)

/-- Outcome of one pass over the extracted tool calls: `turnComplete` breaks the
inner loop (back to user input), `continueLoop` goes on to the next inference
call with the grown conversation. -/
inductive LoopOutcome where
  | turnComplete (conversation : List ConvEntry) : LoopOutcome
  | continueLoop (conversation : List ConvEntry) : LoopOutcome

/-- The tool-call handling of the inner loop of CodeEditingAgent.run
(src/main.py lines 136-164): break when there are no tool calls; otherwise
append one assistant entry holding all the calls, execute them in order, and
append a single user entry holding all the results, then continue (the next
iteration starts with another inference call). -/
def handleToolCalls (tools : List ToolDefinition) (conversation : List ConvEntry)
    (tool_calls : List NormToolCall) : LoopOutcome :=
  if tool_calls.isEmpty then LoopOutcome.turnComplete conversation
  else
    LoopOutcome.continueLoop
      (conversation ++
        [ConvEntry.assistantToolUse tool_calls,
         ConvEntry.userToolResults (toolResultsFor tools tool_calls)])

/- ===== History sink (src/main.py _save_chat_history) ===== -/

/-- Usage part of a persisted history record. -/
structure HistoryUsage where
  input_tokens : Nat
  output_tokens : Nat
deriving DecidableEq

/-- A persisted chat-history record (src/main.py lines 95-105 and 119-132). -/
structure HistoryRecord where
  id : String
  conversation_id : String
  role : String
  content : String
  timestamp : String
  model : String
  usage : HistoryUsage
deriving DecidableEq

/-- State of the history file on disk: absent; present but not valid JSON
(json.load raises JSONDecodeError); present but unreadable (open or read
raises some other exception); or a valid JSON array of records. -/
inductive FileState where
  | absent : FileState
  | corrupt : FileState
  | unreadable : FileState
  | valid (records : List HistoryRecord) : FileState
deriving DecidableEq

/-- The history sink: the in-memory buffer `chat_history` plus the persisted
file. -/
structure HistorySink where
  chat_history : List HistoryRecord
  file : FileState
deriving DecidableEq

/-- CodeEditingAgent._save_chat_history (src/main.py lines 205-231), for an
agent with an output file configured, with the file interaction explicit and
the write modelled as atomic (`write_ok` says whether `json.dump` succeeds).
An absent file reads as the empty list; a corrupt file hits the inner
`except JSONDecodeError` and also reads as the empty list; an unreadable file
raises out of the read into the outer `except`, which only prints - nothing is
written and the buffer is kept. The buffer is cleared only after a successful
write; a failed write also lands in the outer `except`, keeping the buffer. -/
def saveChatHistory (write_ok : Bool) (st : HistorySink) : HistorySink :=
  match st.file with
  | FileState.unreadable => st
  | FileState.absent =>
    if write_ok then { chat_history := [], file := FileState.valid ([] ++ st.chat_history) }
    else st
  | FileState.corrupt =>
    if write_ok then { chat_history := [], file := FileState.valid ([] ++ st.chat_history) }
    else st
  | FileState.valid records =>
    if write_ok then { chat_history := [], file := FileState.valid (records ++ st.chat_history) }
    else st

/- ===== Inference requests (run_inference and its call site) ===== -/

/-- A message as framed for a vendor call. -/
structure ChatMessage where
  role : String
  content : String
deriving DecidableEq

/-- A tool specification as passed to a vendor call. -/
structure ToolSpec where
  name : String
  description : String
deriving DecidableEq

/-- The request a provider adapter hands to the vendor SDK: the keyword
arguments of `client.messages.create` / `client.chat.completions.create`. -/
structure VendorRequest where
  model : String
  max_tokens : Nat
  messages : List ChatMessage
  system : Option String
  tools : Option (List ToolSpec)
deriving DecidableEq

/-- AnthropicProvider.run_inference (src/llm_providers/anthropic_provider.py
lines 13-28): the model string is the hardcoded literal; the system prompt is
passed as a separate parameter; `tools if tools else None`. -/
def AnthropicProvider.run_inference (messages : List ChatMessage)
    (tools : Option (List ToolSpec)) (system : Option String) (max_tokens : Nat) :
    VendorRequest :=
  { model := "claude-3-7-sonnet-latest"
    max_tokens := max_tokens
    messages := messages
    system := system
    tools := match tools with
      | none => none
      | some ts => if ts.isEmpty then none else some ts }

/-- OpenAIProvider.run_inference (src/llm_providers/openai_provider.py lines
13-31): the model string is the hardcoded literal; a present system prompt is
prepended as a synthetic first message (the vendor call has no system
parameter); `tools if tools else None`. -/
def OpenAIProvider.run_inference (messages : List ChatMessage)
    (tools : Option (List ToolSpec)) (system : Option String) (max_tokens : Nat) :
    VendorRequest :=
  let messages2 :=
    match system with
    | some s => { role := "system", content := s } :: messages
    | none => messages
  { model := "gpt-4-turbo-preview"
    max_tokens := max_tokens
    messages := messages2
    system := none
    tools := match tools with
      | none => none
      | some ts => if ts.isEmpty then none else some ts }

/-- The two selectable providers of get_provider (src/main.py). -/
inductive ProviderName where
  | anthropic : ProviderName
  | openai : ProviderName
deriving DecidableEq

/-- The model literal hardcoded in each provider's run_inference body. -/
def hardcodedModel : ProviderName → String
  | ProviderName.anthropic => "claude-3-7-sonnet-latest"
  | ProviderName.openai => "gpt-4-turbo-preview"

/-- CodeEditingAgent._run_inference (src/main.py lines 166-203): builds the tool
spec list and calls provider.run_inference with the conversation, the system
message and the tools (None when the list is empty). The agent's configured
model_name field (set from the CLI --model option) is not passed: it does not
occur in this call. -/
def agentRunInference (p : ProviderName) (model_name : String)
    (conversation : List ChatMessage) (tool_specs : List ToolSpec) (system : String) :
    VendorRequest :=
  let tools := if tool_specs.isEmpty then none else some tool_specs
  match p with
  | ProviderName.anthropic => AnthropicProvider.run_inference conversation tools (some system) 1024
  | ProviderName.openai => OpenAIProvider.run_inference conversation tools (some system) 1024

/- ===== Concrete inputs used by counterexamples and witnesses ===== -/

/-- A tool whose handler succeeds. -/
def demoTool : ToolDefinition :=
  { name := "demo", description := "a demo tool", input_schema := []
    function := fun _ => Except.ok "fine" }

/-- A tool whose handler raises. -/
def failTool : ToolDefinition :=
  { name := "boom", description := "a failing tool", input_schema := []
    function := fun _ => Except.error "Test error" }

/-- An OpenAI response whose vendor usage reports a total (151) different from
prompt + completion (50 + 100). -/
def openaiRespC1 : OpenAIResponse :=
  { choices := []
    usage := { prompt_tokens := 50, completion_tokens := 100, total_tokens := 151 } }

/-- An OpenAI response with one tool call, mirroring the repo's own
test_extract_tool_calls fixture. -/
def openaiRespC6 : OpenAIResponse :=
  { choices :=
      [{ message :=
          { content := none
            tool_calls := some
              [{ id := "tool1"
                 function := { name := "test_tool"
                               arguments := "\x7b\"param\": \"value\"\x7d" } }] } }]
    usage := { prompt_tokens := 0, completion_tokens := 0, total_tokens := 0 } }

/-- A concrete history record. -/
def histRecA : HistoryRecord :=
  { id := "msg1", conversation_id := "conv1", role := "user", content := "Hello"
    timestamp := "t1", model := "test/model", usage := { input_tokens := 0, output_tokens := 0 } }

/- ===== Helper lemmas ===== -/

/-- Every branch of executeTool carries the tool call's id as tool_use_id. -/
theorem executeTool_tool_use_id (tools : List ToolDefinition) (tid tname : String)
    (input : ToolArg) : (executeTool tools tid tname input).tool_use_id = tid := by
  unfold executeTool
  split
  · rfl
  · split <;> rfl

/-- Every branch of executeTool is tagged "tool_result". -/
theorem executeTool_type (tools : List ToolDefinition) (tid tname : String)
    (input : ToolArg) : (executeTool tools tid tname input).type = "tool_result" := by
  unfold executeTool
  split
  · rfl
  · split <;> rfl

/-- Accumulator form of the Anthropic extraction fold. -/
theorem anthropicFoldAux (blocks : List ContentBlock) (acc : List NormToolCall) :
    blocks.foldl
      (fun tool_calls block =>
        match block with
        | ContentBlock.toolUse i n inp =>
          tool_calls ++ [{ id := i, name := n, input := ToolArg.structured inp }]
        | _ => tool_calls)
      acc
    = acc ++ blocks.filterMap
        (fun block =>
          match block with
          | ContentBlock.toolUse i n inp =>
            some { id := i, name := n, input := ToolArg.structured inp }
          | _ => none) := by
  induction blocks generalizing acc with
  | nil => simp
  | cons b bs ih =>
    cases b with
    | text t => simpa [List.filterMap_cons] using ih acc
    | toolUse i n inp =>
      simp only [List.foldl_cons, List.filterMap_cons]
      rw [ih]
      simp

/-- Accumulator form of the inner OpenAI extraction fold. -/
theorem openaiInnerFoldAux (tcs : List OpenAIToolCall) (acc : List NormToolCall) :
    tcs.foldl
      (fun a tc =>
        a ++ [{ id := tc.id, name := tc.function.name,
                input := ToolArg.rawString tc.function.arguments }])
      acc
    = acc ++ tcs.map
        (fun tc => { id := tc.id, name := tc.function.name,
                     input := ToolArg.rawString tc.function.arguments }) := by
  induction tcs generalizing acc with
  | nil => simp
  | cons tc rest ih =>
    simp only [List.foldl_cons, List.map_cons]
    rw [ih]
    simp

/-- Accumulator form of the outer OpenAI extraction fold. -/
theorem openaiOuterFoldAux (choices : List OpenAIChoice) (acc : List NormToolCall) :
    choices.foldl
      (fun tool_calls choice =>
        match choice.message.tool_calls with
        | none => tool_calls
        | some tcs =>
          tcs.foldl
            (fun a tc =>
              a ++ [{ id := tc.id, name := tc.function.name,
                      input := ToolArg.rawString tc.function.arguments }])
            tool_calls)
      acc
    = acc ++ (choices.map
        (fun choice =>
          (choice.message.tool_calls.getD []).map
            (fun tc => { id := tc.id, name := tc.function.name,
                         input := ToolArg.rawString tc.function.arguments }))).flatten := by
  induction choices generalizing acc with
  | nil => simp
  | cons c cs ih =>
    cases h : c.message.tool_calls with
    | none =>
      simp only [List.foldl_cons, List.map_cons, List.flatten_cons, h]
      rw [ih]
      simp
    | some tcs =>
      simp only [List.foldl_cons, List.map_cons, List.flatten_cons, h]
      rw [openaiInnerFoldAux, ih]
      simp

/-- All segments the Anthropic side produces carry a structured input. -/
theorem anthropicSegments_structured (r : AnthropicMessage) :
    (anthropicToolSegments r).all (fun c => c.input.isStructured) = true := by
  unfold anthropicToolSegments
  induction r.content with
  | nil => rfl
  | cons b bs ih =>
    cases b with
    | text t => simpa [List.filterMap_cons] using ih
    | toolUse i n inp => simpa [List.filterMap_cons, ToolArg.isStructured] using ih

/-- All segments the OpenAI side produces carry a raw string input. -/
theorem openaiSegments_raw (r : OpenAIResponse) :
    (openaiToolSegments r).all (fun c => !c.input.isStructured) = true := by
  unfold openaiToolSegments
  induction r.choices with
  | nil => rfl
  | cons c cs ih =>
    simp only [List.map_cons, List.flatten_cons, List.all_append, ih, Bool.and_true]
    simp [List.all_map, ToolArg.isStructured]

/- ===== Claim theorems ===== -/

/-- C1 (amended): the Anthropic adapter always computes total_tokens as
prompt_tokens + completion_tokens (the vendor reports no total of its own);
the OpenAI adapter returns the vendor-reported total verbatim, so for it the
identity holds exactly when the vendor's own total equals the sum. -/
theorem C1_token_usage_amended :
    (∀ r : AnthropicMessage,
      (AnthropicProvider.get_token_usage r).total_tokens =
        (AnthropicProvider.get_token_usage r).prompt_tokens +
          (AnthropicProvider.get_token_usage r).completion_tokens) ∧
    (∀ r : OpenAIResponse,
      (OpenAIProvider.get_token_usage r).total_tokens = r.usage.total_tokens) ∧
    (∀ r : OpenAIResponse,
      ((OpenAIProvider.get_token_usage r).total_tokens =
        (OpenAIProvider.get_token_usage r).prompt_tokens +
          (OpenAIProvider.get_token_usage r).completion_tokens
        ↔ r.usage.total_tokens = r.usage.prompt_tokens + r.usage.completion_tokens)) :=
  ⟨fun _ => rfl, fun _ => rfl, fun _ => Iff.rfl⟩

/-- C1 counterexample: on an OpenAI response whose vendor usage reports
total 151 with prompt 50 and completion 100, get_token_usage returns
total_tokens 151, not the sum 150, so the claimed identity fails. -/
theorem C1_token_usage_cex :
    ¬ ((OpenAIProvider.get_token_usage openaiRespC1).total_tokens =
        (OpenAIProvider.get_token_usage openaiRespC1).prompt_tokens +
          (OpenAIProvider.get_token_usage openaiRespC1).completion_tokens) := by
  decide

/-- C2 (confirmed): _execute_tool is total (it is a Lean function, so it never
raises) and for every tool call: it tags the result "tool_result" carrying the
call's id; an unregistered name yields is_error with content "Tool not found";
a handler failure yields is_error with the failure message as content; a
handler success yields a non-error result with the handler's string. -/
theorem C2_execute_tool (tools : List ToolDefinition) (tid tname : String)
    (input : ToolArg) :
    (executeTool tools tid tname input).type = "tool_result" ∧
    (executeTool tools tid tname input).tool_use_id = tid ∧
    (tools.find? (fun t => t.name == tname) = none →
      executeTool tools tid tname input =
        { type := "tool_result", tool_use_id := tid, content := "Tool not found",
          is_error := true }) ∧
    (∀ td, tools.find? (fun t => t.name == tname) = some td →
      (∀ s, td.function input = Except.ok s →
        executeTool tools tid tname input =
          { type := "tool_result", tool_use_id := tid, content := s, is_error := false }) ∧
      (∀ e, td.function input = Except.error e →
        executeTool tools tid tname input =
          { type := "tool_result", tool_use_id := tid, content := e, is_error := true })) := by
  refine ⟨executeTool_type tools tid tname input,
    executeTool_tool_use_id tools tid tname input, ?_, ?_⟩
  · intro h
    unfold executeTool
    simp only [h]
  · intro td h
    constructor
    · intro s hs
      unfold executeTool
      simp only [h, hs]
    · intro e he
      unfold executeTool
      simp only [h, he]

/-- C2 witness: a registry with one succeeding and one failing tool; a found
tool succeeds, a failing tool's message is captured, a missing name is not
fatal. -/
theorem C2_execute_tool_witness :
    executeTool [demoTool, failTool] "id0" "demo" (ToolArg.structured []) =
      { type := "tool_result", tool_use_id := "id0", content := "fine", is_error := false } ∧
    executeTool [demoTool, failTool] "id1" "boom" (ToolArg.structured []) =
      { type := "tool_result", tool_use_id := "id1", content := "Test error", is_error := true } ∧
    executeTool [demoTool, failTool] "id2" "missing" (ToolArg.structured []) =
      { type := "tool_result", tool_use_id := "id2", content := "Tool not found", is_error := true } := by
  refine ⟨?_, ?_, ?_⟩
  · exact ((C2_execute_tool [demoTool, failTool] "id0" "demo"
      (ToolArg.structured [])).2.2.2 demoTool rfl).1 "fine" rfl
  · exact ((C2_execute_tool [demoTool, failTool] "id1" "boom"
      (ToolArg.structured [])).2.2.2 failTool rfl).2 "Test error" rfl
  · exact (C2_execute_tool [demoTool, failTool] "id2" "missing"
      (ToolArg.structured [])).2.2.1 rfl

/-- C3 (confirmed): for a response whose extracted tool-call list is non-empty,
the loop produces exactly one ToolResult per call, the i-th result's
tool_use_id equal to the i-th call's id and in the same order (the results'
tool_use_id projection equals the calls' id projection), appends them as one
single user-role entry right after the assistant tool-use entry, and continues
the inner loop, so the next step is the next inference call. -/
theorem C3_tool_results (tools : List ToolDefinition) (conv : List ConvEntry)
    (tcs : List NormToolCall) (h : tcs ≠ []) :
    handleToolCalls tools conv tcs =
      LoopOutcome.continueLoop
        (conv ++ [ConvEntry.assistantToolUse tcs,
                  ConvEntry.userToolResults (toolResultsFor tools tcs)]) ∧
    (toolResultsFor tools tcs).length = tcs.length ∧
    (toolResultsFor tools tcs).map ToolResult.tool_use_id = tcs.map NormToolCall.id := by
  refine ⟨?_, ?_, ?_⟩
  · cases tcs with
    | nil => exact absurd rfl h
    | cons t ts => rfl
  · simp [toolResultsFor]
  · simp [toolResultsFor, executeTool_tool_use_id]

/-- C3 witness: a concrete response with two tool calls (one hitting the demo
tool, one naming a missing tool) yields exactly two results with matching ids
in order, grouped into one user entry. -/
theorem C3_tool_results_witness :
    ([({ id := "c1", name := "demo", input := ToolArg.structured [] } : NormToolCall),
      { id := "c2", name := "missing", input := ToolArg.structured [] }] ≠
        ([] : List NormToolCall)) ∧
    handleToolCalls [demoTool] []
      [{ id := "c1", name := "demo", input := ToolArg.structured [] },
       { id := "c2", name := "missing", input := ToolArg.structured [] }] =
      LoopOutcome.continueLoop
        [ConvEntry.assistantToolUse
          [{ id := "c1", name := "demo", input := ToolArg.structured [] },
           { id := "c2", name := "missing", input := ToolArg.structured [] }],
         ConvEntry.userToolResults
          [{ type := "tool_result", tool_use_id := "c1", content := "fine", is_error := false },
           { type := "tool_result", tool_use_id := "c2", content := "Tool not found", is_error := true }]] := by
  constructor
  · decide
  · have h := (C3_tool_results [demoTool] []
      [{ id := "c1", name := "demo", input := ToolArg.structured [] },
       { id := "c2", name := "missing", input := ToolArg.structured [] }] (by decide)).1
    rw [h]
    rfl

/-- C4 (amended): for every non-empty path and old_str distinct from new_str,
the edit handler creates the file with content new_str and returns the
creation-status message when old_str is empty and the file is absent; appends
new_str (returning "OK") when old_str is empty and the file exists; replaces
all occurrences of old_str by new_str and returns "OK" when old_str is
non-empty and present in the file; and fails when old_str is non-empty and
absent - whether the file exists without an occurrence or does not exist at
all. -/
theorem C4_edit_file_amended (fs : Filesystem) (path old_str new_str : String)
    (hp : path ≠ "") (hne : old_str ≠ new_str) :
    (old_str = "" → fsRead fs path = none →
      editFile fs path old_str new_str =
        Except.ok (fsWrite fs path new_str, "Successfully created file " ++ path)) ∧
    (∀ content, old_str = "" → fsRead fs path = some content →
      editFile fs path old_str new_str =
        Except.ok (fsWrite fs path (content ++ new_str), "OK")) ∧
    (∀ content, old_str ≠ "" → fsRead fs path = some content →
        strContains content old_str = true →
      editFile fs path old_str new_str =
        Except.ok (fsWrite fs path (strReplace content old_str new_str), "OK")) ∧
    (∀ content, old_str ≠ "" → fsRead fs path = some content →
        strContains content old_str = false →
      editFile fs path old_str new_str =
        Except.error ("old_str not found in file " ++ path)) ∧
    (old_str ≠ "" → fsRead fs path = none →
      editFile fs path old_str new_str =
        Except.error ("Error reading file " ++ path)) := by
  refine ⟨?_, ?_, ?_, ?_, ?_⟩
  · intro h0 hread
    subst h0
    simp [editFile, hp, hne, hread]
  · intro content h0 hread
    subst h0
    simp [editFile, hp, hne, hread]
  · intro content h0 hread hc
    simp [editFile, hp, hne, hread, h0, hc]
  · intro content h0 hread hc
    simp [editFile, hp, hne, hread, h0, hc]
  · intro h0 hread
    simp [editFile, hp, hne, hread, h0]

/-- C4 witness: the spec's own example - a file holding "Hello" edited with
old_str "Hello", new_str "Hi" gives status "OK" and content "Hi". -/
theorem C4_edit_file_witness :
    (("f.txt" : String) ≠ "" ∧ ("Hello" : String) ≠ "Hi" ∧
      strContains "Hello" "Hello" = true) ∧
    editFile [("f.txt", "Hello")] "f.txt" "Hello" "Hi" =
      Except.ok ([("f.txt", "Hi")], "OK") := by
  refine ⟨⟨by decide, by decide, by decide⟩, ?_⟩
  have h := (C4_edit_file_amended [("f.txt", "Hello")] "f.txt" "Hello" "Hi"
    (by decide) (by decide)).2.2.1 "Hello" (by decide) (by decide) (by decide)
  rw [h]
  rfl

/-- C4 counterexample: at the empty path (a value of the claim's "every path")
with old_str empty and no file present, the handler does not create the file;
it fails the path validation first. -/
theorem C4_edit_file_cex :
    editFile [] "" "" "X" = Except.error "Path is required" ∧
    editFile [] "" "" "X" ≠
      Except.ok (fsWrite [] "" "X", "Successfully created file ") :=
  ⟨rfl, fun h => Except.noConfusion h⟩

/-- C5 (confirmed): with old_str = new_str = s the edit handler fails with a
validation error ("Path is required" when the path is empty, otherwise
"old_str and new_str must be different") whose value does not depend on the
filesystem at all - the check precedes any filesystem access - and, returning
an error, yields no new filesystem, so every file is left unchanged. -/
theorem C5_edit_noop_validation (fs : Filesystem) (path s : String) :
    editFile fs path s s =
      Except.error
        (if path = "" then "Path is required" else "old_str and new_str must be different") ∧
    editFile fs path s s = editFile [] path s s := by
  by_cases h : path = "" <;> simp [editFile, h]

/-- C6 (corrected): each adapter returns every tool-invocation segment of the
response, in the original order, as a record {id, name, input}, and the empty
sequence when there are none (the extraction equals the segment sequence,
which is empty exactly when the response has no tool-invocation segment). The
Anthropic adapter's input is the structured input object, but the OpenAI
adapter's input is the vendor's raw JSON-encoded arguments string, not a
structured object. -/
theorem C6_extract_tool_calls_amended :
    (∀ r : AnthropicMessage,
      AnthropicProvider.extract_tool_calls r = anthropicToolSegments r) ∧
    (∀ r : AnthropicMessage,
      (AnthropicProvider.extract_tool_calls r).all (fun c => c.input.isStructured) = true) ∧
    (∀ r : OpenAIResponse,
      OpenAIProvider.extract_tool_calls r = openaiToolSegments r) ∧
    (∀ r : OpenAIResponse,
      (OpenAIProvider.extract_tool_calls r).all (fun c => !c.input.isStructured) = true) := by
  have ha : ∀ r : AnthropicMessage,
      AnthropicProvider.extract_tool_calls r = anthropicToolSegments r := by
    intro r
    unfold AnthropicProvider.extract_tool_calls anthropicToolSegments
    simpa using anthropicFoldAux r.content []
  have ho : ∀ r : OpenAIResponse,
      OpenAIProvider.extract_tool_calls r = openaiToolSegments r := by
    intro r
    unfold OpenAIProvider.extract_tool_calls openaiToolSegments
    simpa using openaiOuterFoldAux r.choices []
  refine ⟨ha, ?_, ho, ?_⟩
  · intro r
    rw [ha r]
    exact anthropicSegments_structured r
  · intro r
    rw [ho r]
    exact openaiSegments_raw r

/-- C6 counterexample: on the OpenAI response of the repo's own extraction
test, the single extracted tool call's input is the raw JSON-encoded
arguments string, which is not a structured object. -/
theorem C6_extract_tool_calls_cex :
    (OpenAIProvider.extract_tool_calls openaiRespC6).map NormToolCall.input =
      [ToolArg.rawString "\x7b\"param\": \"value\"\x7d"] ∧
    (ToolArg.rawString "\x7b\"param\": \"value\"\x7d").isStructured = false :=
  ⟨rfl, rfl⟩

/-- C7 (code bug): the model identifier sent to the vendor is independent of
the configured model override - for each provider the request built by the
agent's inference call carries the provider's hardcoded model literal, and in
particular configuring "gpt-4o" on the OpenAI provider still sends
"gpt-4-turbo-preview". -/
theorem C7_model_hardcoded (p : ProviderName) (m1 m2 : String)
    (conv : List ChatMessage) (tool_specs : List ToolSpec) (system : String) :
    agentRunInference p m1 conv tool_specs system =
      agentRunInference p m2 conv tool_specs system ∧
    (agentRunInference p m1 conv tool_specs system).model = hardcodedModel p ∧
    (agentRunInference ProviderName.openai "gpt-4o" [] [] "sys").model =
      "gpt-4-turbo-preview" := by
  refine ⟨rfl, ?_, rfl⟩
  cases p <;> rfl

/-- C8 (amended): a successful flush reads the persisted sequence (an absent
file, and a corrupt one - the inner JSONDecodeError handler - read as the
empty sequence), concatenates the buffer onto it, writes the whole sequence
back and clears the buffer; hence flushing two sequential one-record batches
to an initially-absent file leaves a file holding both records in append
order. An unreadable persisted file, however, is not treated as empty: the
read raises into the outer handler, the flush aborts, and buffer and file are
left unchanged. -/
theorem C8_flush_amended (buf recs : List HistoryRecord) (r1 r2 : HistoryRecord) :
    saveChatHistory true { chat_history := buf, file := FileState.absent } =
      { chat_history := [], file := FileState.valid buf } ∧
    saveChatHistory true { chat_history := buf, file := FileState.corrupt } =
      { chat_history := [], file := FileState.valid buf } ∧
    saveChatHistory true { chat_history := buf, file := FileState.valid recs } =
      { chat_history := [], file := FileState.valid (recs ++ buf) } ∧
    saveChatHistory true { chat_history := buf, file := FileState.unreadable } =
      { chat_history := buf, file := FileState.unreadable } ∧
    (saveChatHistory true
      { chat_history := [r2]
        file := (saveChatHistory true { chat_history := [r1], file := FileState.absent }).file }).file =
      FileState.valid [r1, r2] :=
  ⟨rfl, rfl, rfl, rfl, rfl⟩

/-- C8 counterexample: with an unreadable persisted file and one buffered
record, a flush does not treat the file as empty, write and clear the buffer
as the claim describes - it leaves buffer and file untouched. -/
theorem C8_flush_cex :
    saveChatHistory true { chat_history := [histRecA], file := FileState.unreadable } =
      { chat_history := [histRecA], file := FileState.unreadable } ∧
    saveChatHistory true { chat_history := [histRecA], file := FileState.unreadable } ≠
      { chat_history := [], file := FileState.valid [histRecA] } := by
  refine ⟨rfl, ?_⟩
  decide

/-- C9 (confirmed): the directory-listing handler is a pure function of the
directory's entries, so two calls on an unchanged directory state return
identical output; that output is a directory group followed by a file group,
the directory group a sorted permutation of the slash-suffixed directory
names, the file group a sorted permutation of the file names. -/
theorem C9_list_files_sorted (entries : List DirEntry) :
    listFiles entries = listFiles entries ∧
    ∃ ds fls,
      listFiles entries = ds ++ fls ∧
      List.Sorted (· ≤ ·) ds ∧
      List.Sorted (· ≤ ·) fls ∧
      List.Perm ds
        ((entries.filter (fun e => e.kind == EntryKind.dir)).map (fun e => e.name ++ "/")) ∧
      List.Perm fls
        ((entries.filter (fun e => e.kind == EntryKind.file)).map DirEntry.name) := by
  have hsplit : listFiles entries =
      List.insertionSort (· ≤ ·)
        ((entries.filter (fun e => e.kind == EntryKind.dir)).map (fun e => e.name ++ "/")) ++
      List.insertionSort (· ≤ ·)
        ((entries.filter (fun e => e.kind == EntryKind.file)).map DirEntry.name) := rfl
  refine ⟨rfl, ?_⟩
  exact ⟨_, _, hsplit, List.sorted_insertionSort _ _, List.sorted_insertionSort _ _,
    List.perm_insertionSort _ _, List.perm_insertionSort _ _⟩

/-- C10 (confirmed): a failed write leaves the whole sink - the in-memory
buffer and the persisted file - unchanged (the buffer is cleared only by a
successful write), so the buffered records are carried into the next flush
attempt, and a failed flush followed by a successful one ends in exactly the
state a single successful flush would produce: no record lost, none
duplicated. -/
theorem C10_flush_failure_preserves_buffer (st : HistorySink) :
    saveChatHistory false st = st ∧
    saveChatHistory true (saveChatHistory false st) = saveChatHistory true st := by
  have h1 : saveChatHistory false st = st := by
    unfold saveChatHistory
    cases st with
    | mk buf file => cases file <;> rfl
  exact ⟨h1, by rw [h1]⟩
